import Mathlib

/-!
Shallow embedding of the fetchserp MCP server (src/index.js).

The server is a protocol adapter: each MCP tool call is dispatched by name
(handleToolCall) to a single upstream HTTP request built by makeRequest,
and the upstream JSON body is serialized back to the caller as one text
content block.  The HTTP-mode /sse handler additionally checks a bearer
Authorization header and keeps an in-memory session-id-to-transport map.

JavaScript values are modelled by JsValue (arguments objects are ordered
association lists), JSON documents by Json, and the network by an oracle
function from requests to responses, so that the list of issued requests
is an explicit trace.
-/

/-- JavaScript runtime values, as far as tool arguments need them. -/
inductive JsValue where
  | undefined : JsValue
  | null : JsValue
  | bool (b : Bool) : JsValue
  | num (n : Int) : JsValue
  | str (s : String) : JsValue
  | arr (elements : List JsValue) : JsValue
  | obj : JsValue

/-- A JavaScript object literal, as an ordered list of key-value pairs. -/
abbrev JsObj := List (String × JsValue)

/-- Whether a JsValue is an array (used to state the query-mapping rule). -/
def JsValue.isArr : JsValue → Bool
  | .arr _ => true
  | _ => false

/-- Whether a JsValue is the null value. -/
def JsValue.isNull : JsValue → Bool
  | .null => true
  | _ => false

/-- Whether a JsValue is undefined. -/
def JsValue.isUndef : JsValue → Bool
  | .undefined => true
  | _ => false

mutual

/-- Models the JavaScript String(v) conversion (also v.toString() for the
values that reach it in makeRequest, where null and undefined are excluded). -/
def jsToString : JsValue → String
  | .undefined => "undefined"
  | .null => "null"
  | .bool b => if b then "true" else "false"
  | .num n => toString n
  | .str s => s
  | .arr es => jsArrToString es
  | .obj => "[object Object]"

/-- Array.prototype.toString joins the elements with commas. -/
def jsArrToString : List JsValue → String
  | [] => ""
  | [v] => jsElemToString v
  | v :: rest => jsElemToString v ++ "," ++ jsArrToString rest

/-- Inside Array.prototype.join, null and undefined render as the empty
string; every other value renders via String(v). -/
def jsElemToString : JsValue → String
  | .undefined => ""
  | .null => ""
  | .bool b => if b then "true" else "false"
  | .num n => toString n
  | .str s => s
  | .arr es => jsArrToString es
  | .obj => "[object Object]"

end

/-- Property access args[k], yielding undefined for a missing key
(models the destructuring reads in handleToolCall). -/
def jsGet (o : JsObj) (k : String) : JsValue :=
  match o.lookup k with
  | some v => v
  | none => .undefined

/-- Rest-spread after destructuring: the object without the named keys. -/
def eraseKeys (o : JsObj) (ks : List String) : JsObj :=
  o.filter (fun p => !ks.contains p.1)

/-- JSON documents, as returned by response.json(). -/
inductive Json where
  | null : Json
  | bool (b : Bool) : Json
  | num (n : Int) : Json
  | str (s : String) : Json
  | arr (elements : List Json) : Json
  | obj (fields : List (String × Json)) : Json

/-- The MCP SDK error codes used by src/index.js. -/
inductive ErrorCode where
  | invalidRequest : ErrorCode
  | methodNotFound : ErrorCode
  | internalError : ErrorCode
deriving DecidableEq

/-- McpError carries an error code and a message string. -/
structure McpError where
  code : ErrorCode
  message : String
deriving DecidableEq

/-- The upstream base URL (constant API_BASE_URL in src/index.js). -/
def API_BASE_URL : String := "https://www.fetchserp.com"

/-- An outbound HTTP request: url is the base plus the endpoint path, the
query parameters are kept as an ordered list of name-value pairs (as in
URLSearchParams), and the body is the object that fetch serializes with
JSON.stringify for non-GET requests. -/
structure HttpRequest where
  url : String
  method : String
  query : List (String × String)
  headers : List (String × String)
  body : Option JsObj

/-- An upstream HTTP response: status, status text, the raw body text
(read by response.text on the error path) and the parsed JSON body
(read by response.json on the success path). -/
structure HttpResponse where
  status : Nat
  statusText : String
  bodyText : String
  bodyJson : Json

/-- The network, as a pure oracle from requests to responses. -/
abbrev Oracle := HttpRequest → HttpResponse

/-- Models fetchserpToken = token or process.env.FETCHSERP_API_TOKEN
followed by the falsiness check: an empty string is falsy, so it falls
back, and an absent or empty final value yields none. -/
def resolveToken (token envToken : Option String) : Option String :=
  let t :=
    match token with
    | some s => if s = "" then envToken else some s
    | none => envToken
  match t with
  | some s => if s = "" then none else some s
  | none => none

/-- Models the query-parameter loop of makeRequest: null and undefined
values are skipped, array values append one pair per element under the
key with square brackets, and every other value is appended under its
key via its string conversion. -/
def buildQuery : JsObj → List (String × String)
  | [] => []
  | (_, .undefined) :: rest => buildQuery rest
  | (_, .null) :: rest => buildQuery rest
  | (k, .arr es) :: rest =>
      es.map (fun v => (k ++ "[]", jsToString v)) ++ buildQuery rest
  | (k, v) :: rest => (k, jsToString v) :: buildQuery rest

/-- The request makeRequest hands to fetch: query parameters are added
only for GET requests with a non-empty params object, the two headers are
fixed, and the body is attached only for non-GET requests. -/
def buildRequest (endpoint method : String) (params : JsObj)
    (body : Option JsObj) (t : String) : HttpRequest :=
  { url := API_BASE_URL ++ endpoint
    method := method
    query := if method = "GET" ∧ ¬ params.isEmpty then buildQuery params else []
    headers := [("Authorization", "Bearer " ++ t),
                ("Content-Type", "application/json")]
    body := if method = "GET" then none else body }

/-- Translation of makeRequest: resolve the token (failing with an
InvalidRequest McpError when none is available, before any request is
issued), issue exactly one request, and either return the parsed JSON
body on a 2xx status or fail with an InternalError McpError relaying the
status, status text and body text.  The first component is the trace of
issued requests. -/
def makeRequest (endpoint method : String) (params : JsObj)
    (body : Option JsObj) (token envToken : Option String)
    (oracle : Oracle) : List HttpRequest × Except McpError Json :=
  match resolveToken token envToken with
  | none => ([], .error ⟨.invalidRequest, "FETCHSERP_API_TOKEN is required"⟩)
  | some t =>
      let req := buildRequest endpoint method params body t
      let resp := oracle req
      if 200 ≤ resp.status ∧ resp.status < 300 then
        ([req], .ok resp.bodyJson)
      else
        ([req], .error ⟨.internalError,
          "API request failed: " ++ toString resp.status ++ " " ++
            resp.statusText ++ " - " ++ resp.bodyText⟩)

/-- Translation of the handleToolCall switch: each declared tool name maps
to one makeRequest call with its endpoint, method, params and body; any
other name fails with a MethodNotFound McpError and no request. -/
def handleToolCall (name : String) (args : JsObj)
    (token envToken : Option String) (oracle : Oracle) :
    List HttpRequest × Except McpError Json :=
  if name = "get_backlinks" then
    makeRequest "/api/v1/backlinks" "GET" args none token envToken oracle
  else if name = "get_domain_emails" then
    makeRequest "/api/v1/domain_emails" "GET" args none token envToken oracle
  else if name = "get_domain_info" then
    makeRequest "/api/v1/domain_infos" "GET" args none token envToken oracle
  else if name = "get_keywords_search_volume" then
    makeRequest "/api/v1/keywords_search_volume" "GET" args none token envToken oracle
  else if name = "get_keywords_suggestions" then
    makeRequest "/api/v1/keywords_suggestions" "GET" args none token envToken oracle
  else if name = "get_long_tail_keywords" then
    makeRequest "/api/v1/long_tail_keywords_generator" "GET" args none token envToken oracle
  else if name = "get_moz_analysis" then
    makeRequest "/api/v1/moz" "GET" args none token envToken oracle
  else if name = "check_page_indexation" then
    makeRequest "/api/v1/page_indexation" "GET" args none token envToken oracle
  else if name = "get_domain_ranking" then
    makeRequest "/api/v1/ranking" "GET" args none token envToken oracle
  else if name = "scrape_webpage" then
    makeRequest "/api/v1/scrape" "GET" args none token envToken oracle
  else if name = "scrape_domain" then
    makeRequest "/api/v1/scrape_domain" "GET" args none token envToken oracle
  else if name = "scrape_webpage_js" then
    let url := jsGet args "url"
    let js_script := jsGet args "js_script"
    let jsParams := eraseKeys args ["url", "js_script"]
    makeRequest "/api/v1/scrape_js" "POST" (("url", url) :: jsParams)
      (some [("url", url), ("js_script", js_script)]) token envToken oracle
  else if name = "scrape_webpage_js_proxy" then
    let proxyUrl := jsGet args "url"
    let country := jsGet args "country"
    let proxyScript := jsGet args "js_script"
    let proxyParams := eraseKeys args ["url", "country", "js_script"]
    makeRequest "/api/v1/scrape_js_with_proxy" "POST"
      (("url", proxyUrl) :: ("country", country) :: proxyParams)
      (some [("url", proxyUrl), ("js_script", proxyScript)]) token envToken oracle
  else if name = "get_serp_results" then
    makeRequest "/api/v1/serp" "GET" args none token envToken oracle
  else if name = "get_serp_html" then
    makeRequest "/api/v1/serp_html" "GET" args none token envToken oracle
  else if name = "get_serp_js_start" then
    makeRequest "/api/v1/serp_js" "GET" args none token envToken oracle
  else if name = "get_serp_js_result" then
    makeRequest ("/api/v1/serp_js/" ++ jsToString (jsGet args "uuid")) "GET"
      [] none token envToken oracle
  else if name = "get_serp_text" then
    makeRequest "/api/v1/serp_text" "GET" args none token envToken oracle
  else if name = "get_user_info" then
    makeRequest "/api/v1/user" "GET" [] none token envToken oracle
  else if name = "get_webpage_ai_analysis" then
    makeRequest "/api/v1/web_page_ai_analysis" "GET" args none token envToken oracle
  else if name = "get_webpage_seo_analysis" then
    makeRequest "/api/v1/web_page_seo_analysis" "GET" args none token envToken oracle
  else
    ([], .error ⟨.methodNotFound, "Unknown tool: " ++ name⟩)

/-- The 21 tool names declared by the ListTools handler. -/
def declaredTools : List String :=
  ["get_backlinks", "get_domain_emails", "get_domain_info",
   "get_keywords_search_volume", "get_keywords_suggestions",
   "get_long_tail_keywords", "get_moz_analysis", "check_page_indexation",
   "get_domain_ranking", "scrape_webpage", "scrape_domain",
   "scrape_webpage_js", "scrape_webpage_js_proxy", "get_serp_results",
   "get_serp_html", "get_serp_js_start", "get_serp_js_result",
   "get_serp_text", "get_user_info", "get_webpage_ai_analysis",
   "get_webpage_seo_analysis"]

/-- JSON string escaping for the characters JSON.stringify always escapes
in the strings this model produces. -/
def escapeChar (c : Char) : String :=
  if c = '"' then "\\\""
  else if c = '\\' then "\\\\"
  else if c = '\n' then "\\n"
  else if c = '\t' then "\\t"
  else if c = '\r' then "\\r"
  else String.singleton c

/-- A JSON string literal with surrounding quotes. -/
def quoteJson (s : String) : String :=
  "\"" ++ String.join (s.data.map escapeChar) ++ "\""

mutual

/-- Models JSON.stringify(j, null, 2) at the given current indentation. -/
def stringifyAt (ind : String) : Json → String
  | .null => "null"
  | .bool b => if b then "true" else "false"
  | .num n => toString n
  | .str s => quoteJson s
  | .arr [] => "[]"
  | .arr (e :: es) =>
      "[\n" ++ stringifyItems (ind ++ "  ") (e :: es) ++ "\n" ++ ind ++ "]"
  | .obj [] => "\x7b\x7d"
  | .obj (kv :: kvs) =>
      "\x7b\n" ++ stringifyFields (ind ++ "  ") (kv :: kvs) ++ "\n" ++ ind ++ "\x7d"

/-- Array items, one per line, comma separated. -/
def stringifyItems (ind : String) : List Json → String
  | [] => ""
  | [e] => ind ++ stringifyAt ind e
  | e :: es => ind ++ stringifyAt ind e ++ ",\n" ++ stringifyItems ind es

/-- Object fields, one per line, comma separated. -/
def stringifyFields (ind : String) : List (String × Json) → String
  | [] => ""
  | [(k, v)] => ind ++ quoteJson k ++ ": " ++ stringifyAt ind v
  | (k, v) :: kvs =>
      ind ++ quoteJson k ++ ": " ++ stringifyAt ind v ++ ",\n" ++
        stringifyFields ind kvs

end

/-- JSON.stringify(result, null, 2) as used by the CallTool handler. -/
def stringify2 (j : Json) : String := stringifyAt "" j

/-- One content block of an MCP tool result. -/
structure ContentBlock where
  type : String
  text : String

/-- Translation of the CallToolRequestSchema handler: run handleToolCall
and wrap a successful result in a single text content block holding its
JSON serialization; a McpError escapes unchanged (the catch clause
rethrows instances of McpError as they are). -/
def callToolHandler (name : String) (args : JsObj)
    (token envToken : Option String) (oracle : Oracle) :
    List HttpRequest × Except McpError (List ContentBlock) :=
  match handleToolCall name args token envToken oracle with
  | (reqs, .ok result) => (reqs, .ok [⟨"text", stringify2 result⟩])
  | (reqs, .error e) => (reqs, .error e)

/-- List-level string prefix test implementing the JavaScript call
authHeader.startsWith of the /sse handler. -/
def strStartsWith (s p : String) : Bool :=
  s.data.take p.data.length == p.data

/-- List-level string drop implementing authHeader.substring(7). -/
def strDrop (s : String) (n : Nat) : String :=
  ⟨s.data.drop n⟩

/-- Translation of the /sse authorization check: a missing header or one
that does not start with the bearer marker is rejected with status 401;
otherwise the token is everything after the seven-character marker. -/
def sseAuthCheck (authHeader : Option String) : Except Nat String :=
  match authHeader with
  | none => .error 401
  | some h =>
      if strStartsWith h "Bearer " then .ok (strDrop h 7)
      else .error 401

/-- The in-memory transports map of the HTTP mode, keyed by session id;
transport objects are identified by a natural number. -/
abbrev SessionMap := List (String × Nat)

/-- Map lookup, transports[sid]. -/
def mapLookup (m : SessionMap) (k : String) : Option Nat :=
  match m with
  | [] => none
  | (k2, v) :: rest => if k = k2 then some v else mapLookup rest k

/-- JavaScript property assignment transports[k] = v: overwrite the
binding when the key exists, otherwise add it. -/
def mapStore (m : SessionMap) (k : String) (v : Nat) : SessionMap :=
  match m with
  | [] => [(k, v)]
  | (k2, v2) :: rest =>
      if k = k2 then (k2, v) :: rest else (k2, v2) :: mapStore rest k v

/-- JavaScript truthiness of the optional session-id header string. -/
def strTruthy : Option String → Bool
  | none => false
  | some s => s ≠ ""

/-- Outcome of one /sse handler step. -/
inductive SseResult where
  | handled (transport : Nat) : SseResult
  | badRequest : SseResult
deriving DecidableEq

/-- One step of the /sse handler on the transports map: a truthy incoming
session id that is present in the map reuses its transport; an absent or
falsy session id on an initialize request creates a fresh transport and,
when the SDK assigned it a truthy session id, stores it under that id;
everything else is a 400 response.  The fresh transport identity and the
session id the SDK generator assigned to it are inputs. -/
def sseStep (m : SessionMap) (sid : Option String) (isInit : Bool)
    (fresh : Nat) (genSid : Option String) : SessionMap × SseResult :=
  if h : strTruthy sid then
    match sid, h with
    | some s, _ =>
      match mapLookup m s with
      | some t => (m, .handled t)
      | none => (m, .badRequest)
  else if isInit then
    match genSid with
    | some g => if g ≠ "" then (mapStore m g fresh, .handled fresh)
                else (m, .handled fresh)
    | none => (m, .handled fresh)
  else
    (m, .badRequest)

/-! Helper lemmas shared by the claim theorems. -/

/-- With a resolved token, makeRequest issues exactly the one request
built by buildRequest, whatever the oracle answers. -/
theorem makeRequest_fst (endpoint method : String) (params : JsObj)
    (body : Option JsObj) (token envToken : Option String) (t : String)
    (oracle : Oracle) (h : resolveToken token envToken = some t) :
    (makeRequest endpoint method params body token envToken oracle).1 =
      [buildRequest endpoint method params body t] := by
  unfold makeRequest
  rw [h]
  dsimp only
  split <;> rfl

/-- Without a resolvable token, makeRequest issues no request and fails
with the InvalidRequest credential error. -/
theorem makeRequest_noToken (endpoint method : String) (params : JsObj)
    (body : Option JsObj) (token envToken : Option String)
    (oracle : Oracle) (h : resolveToken token envToken = none) :
    makeRequest endpoint method params body token envToken oracle =
      ([], .error ⟨.invalidRequest, "FETCHSERP_API_TOKEN is required"⟩) := by
  unfold makeRequest
  rw [h]

/-- On a 2xx response, makeRequest returns the parsed JSON body. -/
theorem makeRequest_ok (endpoint method : String) (params : JsObj)
    (body : Option JsObj) (token envToken : Option String) (t : String)
    (oracle : Oracle) (h : resolveToken token envToken = some t)
    (hok : 200 ≤ (oracle (buildRequest endpoint method params body t)).status ∧
           (oracle (buildRequest endpoint method params body t)).status < 300) :
    makeRequest endpoint method params body token envToken oracle =
      ([buildRequest endpoint method params body t],
       .ok (oracle (buildRequest endpoint method params body t)).bodyJson) := by
  unfold makeRequest
  rw [h]
  dsimp only
  rw [if_pos hok]

/-- On a non-2xx response, makeRequest fails with the InternalError
message relaying status, status text and body text. -/
theorem makeRequest_httpError (endpoint method : String) (params : JsObj)
    (body : Option JsObj) (token envToken : Option String) (t : String)
    (oracle : Oracle) (h : resolveToken token envToken = some t)
    (hbad : ¬ (200 ≤ (oracle (buildRequest endpoint method params body t)).status ∧
               (oracle (buildRequest endpoint method params body t)).status < 300)) :
    makeRequest endpoint method params body token envToken oracle =
      ([buildRequest endpoint method params body t],
       .error ⟨.internalError,
         "API request failed: " ++
           toString (oracle (buildRequest endpoint method params body t)).status ++
           " " ++ (oracle (buildRequest endpoint method params body t)).statusText ++
           " - " ++ (oracle (buildRequest endpoint method params body t)).bodyText⟩) := by
  unfold makeRequest
  rw [h]
  dsimp only
  rw [if_neg hbad]

/-- A GET request built by buildRequest carries exactly the mapped query. -/
theorem buildRequest_query_get (endpoint : String) (params : JsObj)
    (body : Option JsObj) (t : String) :
    (buildRequest endpoint "GET" params body t).query = buildQuery params := by
  unfold buildRequest
  dsimp only
  by_cases h : params.isEmpty
  · rw [if_neg (by simp [h])]
    cases params with
    | nil => rfl
    | cons a l => simp [List.isEmpty] at h
  · rw [if_pos ⟨rfl, h⟩]

/-- Lookup after a JavaScript-style store. -/
theorem mapStore_lookup (m : SessionMap) (k : String) (v : Nat) (s : String) :
    mapLookup (mapStore m k v) s = if s = k then some v else mapLookup m s := by
  induction m with
  | nil =>
      by_cases h : s = k <;> simp [mapStore, mapLookup, h]
  | cons p rest ih =>
      obtain ⟨k2, v2⟩ := p
      by_cases hk : k = k2
      · subst hk
        by_cases hs : s = k <;> simp [mapStore, mapLookup, hs]
      · by_cases hs : s = k2
        · subst hs
          rw [mapStore, if_neg hk]
          rw [mapLookup, if_pos rfl, mapLookup, if_pos rfl]
          rw [if_neg (fun h2 => hk (Eq.symm h2))]
        · rw [mapStore, if_neg hk]
          rw [mapLookup, if_neg hs, mapLookup, if_neg hs, ih]

/-- A non-GET request built by buildRequest has an empty query and keeps
its body. -/
theorem buildRequest_post (endpoint : String) (params : JsObj)
    (body : Option JsObj) (t : String) :
    (buildRequest endpoint "POST" params body t).query = [] ∧
    (buildRequest endpoint "POST" params body t).body = body := by
  constructor
  · unfold buildRequest
    dsimp only
    rw [if_neg (fun h => by simpa using h.1)]
  · unfold buildRequest
    dsimp only
    rw [if_neg (by simp)]

/-- A nonempty per-request token resolves to itself. -/
theorem resolveToken_perRequest (t : String) (envToken : Option String)
    (ht : t ≠ "") : resolveToken (some t) envToken = some t := by
  simp [resolveToken, ht]

/-- An empty per-request token falls back to a nonempty environment token. -/
theorem resolveToken_fallback (envTok : String) (he : envTok ≠ "") :
    resolveToken (some "") (some envTok) = some envTok := by
  simp [resolveToken, he]

/-- Every declared tool name routes to a single makeRequest call: the two
scraping tools use POST with the documented two-field body, every other
tool uses GET with no body, and only get_serp_js_result and get_user_info
replace the arguments object by an empty params object. -/
theorem handleToolCall_routed (name : String) (args : JsObj)
    (token envToken : Option String) (oracle : Oracle)
    (hmem : name ∈ declaredTools) :
    ∃ e m p b,
      handleToolCall name args token envToken oracle =
        makeRequest e m p b token envToken oracle ∧
      ((name = "scrape_webpage_js" ∨ name = "scrape_webpage_js_proxy") →
        m = "POST" ∧
        b = some [("url", jsGet args "url"), ("js_script", jsGet args "js_script")]) ∧
      (¬ (name = "scrape_webpage_js" ∨ name = "scrape_webpage_js_proxy") →
        m = "GET" ∧ b = none) ∧
      ((name = "get_serp_js_result" ∨ name = "get_user_info") → p = []) ∧
      (¬ (name = "scrape_webpage_js" ∨ name = "scrape_webpage_js_proxy" ∨
          name = "get_serp_js_result" ∨ name = "get_user_info") → p = args) := by
  fin_cases hmem
  · exact ⟨"/api/v1/backlinks", "GET", args, none,
      by simp [handleToolCall], by simp, by simp, by simp, by simp⟩
  · exact ⟨"/api/v1/domain_emails", "GET", args, none,
      by simp [handleToolCall], by simp, by simp, by simp, by simp⟩
  · exact ⟨"/api/v1/domain_infos", "GET", args, none,
      by simp [handleToolCall], by simp, by simp, by simp, by simp⟩
  · exact ⟨"/api/v1/keywords_search_volume", "GET", args, none,
      by simp [handleToolCall], by simp, by simp, by simp, by simp⟩
  · exact ⟨"/api/v1/keywords_suggestions", "GET", args, none,
      by simp [handleToolCall], by simp, by simp, by simp, by simp⟩
  · exact ⟨"/api/v1/long_tail_keywords_generator", "GET", args, none,
      by simp [handleToolCall], by simp, by simp, by simp, by simp⟩
  · exact ⟨"/api/v1/moz", "GET", args, none,
      by simp [handleToolCall], by simp, by simp, by simp, by simp⟩
  · exact ⟨"/api/v1/page_indexation", "GET", args, none,
      by simp [handleToolCall], by simp, by simp, by simp, by simp⟩
  · exact ⟨"/api/v1/ranking", "GET", args, none,
      by simp [handleToolCall], by simp, by simp, by simp, by simp⟩
  · exact ⟨"/api/v1/scrape", "GET", args, none,
      by simp [handleToolCall], by simp, by simp, by simp, by simp⟩
  · exact ⟨"/api/v1/scrape_domain", "GET", args, none,
      by simp [handleToolCall], by simp, by simp, by simp, by simp⟩
  · exact ⟨"/api/v1/scrape_js", "POST",
      ("url", jsGet args "url") :: eraseKeys args ["url", "js_script"],
      some [("url", jsGet args "url"), ("js_script", jsGet args "js_script")],
      by simp [handleToolCall], by simp, by simp, by simp, by simp⟩
  · exact ⟨"/api/v1/scrape_js_with_proxy", "POST",
      ("url", jsGet args "url") :: ("country", jsGet args "country") ::
        eraseKeys args ["url", "country", "js_script"],
      some [("url", jsGet args "url"), ("js_script", jsGet args "js_script")],
      by simp [handleToolCall], by simp, by simp, by simp, by simp⟩
  · exact ⟨"/api/v1/serp", "GET", args, none,
      by simp [handleToolCall], by simp, by simp, by simp, by simp⟩
  · exact ⟨"/api/v1/serp_html", "GET", args, none,
      by simp [handleToolCall], by simp, by simp, by simp, by simp⟩
  · exact ⟨"/api/v1/serp_js", "GET", args, none,
      by simp [handleToolCall], by simp, by simp, by simp, by simp⟩
  · exact ⟨"/api/v1/serp_js/" ++ jsToString (jsGet args "uuid"), "GET", [], none,
      by simp [handleToolCall], by simp, by simp, by simp, by simp⟩
  · exact ⟨"/api/v1/serp_text", "GET", args, none,
      by simp [handleToolCall], by simp, by simp, by simp, by simp⟩
  · exact ⟨"/api/v1/user", "GET", [], none,
      by simp [handleToolCall], by simp, by simp, by simp, by simp⟩
  · exact ⟨"/api/v1/web_page_ai_analysis", "GET", args, none,
      by simp [handleToolCall], by simp, by simp, by simp, by simp⟩
  · exact ⟨"/api/v1/web_page_seo_analysis", "GET", args, none,
      by simp [handleToolCall], by simp, by simp, by simp, by simp⟩

/-- A name that is not declared falls through the whole dispatch chain to
the MethodNotFound error, issuing no request. -/
theorem handleToolCall_default (name : String) (args : JsObj)
    (token envToken : Option String) (oracle : Oracle)
    (hmem : name ∉ declaredTools) :
    handleToolCall name args token envToken oracle =
      ([], .error ⟨.methodNotFound, "Unknown tool: " ++ name⟩) := by
  simp [declaredTools] at hmem
  obtain ⟨h1, h2, h3, h4, h5, h6, h7, h8, h9, h10, h11, h12, h13, h14, h15,
    h16, h17, h18, h19, h20, h21⟩ := hmem
  unfold handleToolCall
  rw [if_neg h1, if_neg h2, if_neg h3, if_neg h4, if_neg h5, if_neg h6,
    if_neg h7, if_neg h8, if_neg h9, if_neg h10, if_neg h11, if_neg h12,
    if_neg h13, if_neg h14, if_neg h15, if_neg h16, if_neg h17, if_neg h18,
    if_neg h19, if_neg h20, if_neg h21]

/-- A header of the form Bearer followed by a token passes the marker test. -/
theorem strStartsWith_bearer (T : String) :
    strStartsWith ("Bearer " ++ T) "Bearer " = true := by
  cases T with
  | mk l =>
      show (("Bearer ".data ++ l).take "Bearer ".data.length ==
        "Bearer ".data) = true
      rw [List.take_left]
      simp

/-- Dropping the seven marker characters recovers the token. -/
theorem strDrop_bearer (T : String) : strDrop ("Bearer " ++ T) 7 = T := by
  cases T with
  | mk l =>
      show String.mk (("Bearer ".data ++ l).drop 7) = String.mk l
      rw [show (7 : Nat) = "Bearer ".data.length from rfl, List.drop_left]

/-- A network oracle that always answers 200 OK with an empty JSON object. -/
def okOracle : Oracle := fun _ => ⟨200, "OK", "", Json.obj []⟩

/-- A network oracle that always answers 404 with a plain-text body. -/
def notFoundOracle : Oracle := fun _ => ⟨404, "Not Found", "no credits", Json.null⟩

/-- Every request a declared tool call issues carries the resolved bearer
token and the JSON content type, and nothing else, in its headers. -/
theorem mem_trace_headers (name : String) (args : JsObj)
    (token envToken : Option String) (t : String) (oracle : Oracle)
    (req : HttpRequest) (htok : resolveToken token envToken = some t)
    (hreq : req ∈ (handleToolCall name args token envToken oracle).1) :
    req.headers = [("Authorization", "Bearer " ++ t),
                   ("Content-Type", "application/json")] := by
  by_cases hmem : name ∈ declaredTools
  · obtain ⟨e, m, p, b, heq, -, -, -, -⟩ :=
      handleToolCall_routed name args token envToken oracle hmem
    rw [heq, makeRequest_fst e m p b token envToken t oracle htok] at hreq
    rw [List.mem_singleton] at hreq
    subst hreq
    rfl
  · rw [handleToolCall_default name args token envToken oracle hmem] at hreq
    simp at hreq

/-- C1: for every declared tool and any arguments, when a credential
resolves and the upstream answers with a 2xx status, the tool call
returns a single text content block holding exactly the JSON
serialization of the upstream response body, unmodified. -/
theorem toolResult_is_upstream_body (name : String) (args : JsObj)
    (token envToken : Option String) (t : String) (oracle : Oracle)
    (hmem : name ∈ declaredTools)
    (htok : resolveToken token envToken = some t)
    (hok : ∀ r, 200 ≤ (oracle r).status ∧ (oracle r).status < 300) :
    ∃ req, callToolHandler name args token envToken oracle =
      ([req], .ok [⟨"text", stringify2 (oracle req).bodyJson⟩]) := by
  obtain ⟨e, m, p, b, heq, -, -, -, -⟩ :=
    handleToolCall_routed name args token envToken oracle hmem
  refine ⟨buildRequest e m p b t, ?_⟩
  unfold callToolHandler
  rw [heq, makeRequest_ok e m p b token envToken t oracle htok (hok _)]

/-- Witness for C1 at get_user_info with a constant 200 oracle. -/
theorem toolResult_is_upstream_body_witness :
    ∃ req, callToolHandler "get_user_info" [] (some "k") none okOracle =
      ([req], .ok [⟨"text", stringify2 (okOracle req).bodyJson⟩]) :=
  toolResult_is_upstream_body "get_user_info" [] (some "k") none "k" okOracle
    (by decide) rfl (fun _ => by constructor <;> norm_num [okOracle])

/-- C3: a tool call whose name is not one of the declared tool names
issues no upstream request and fails with the MethodNotFound error. -/
theorem unknownTool_methodNotFound (name : String) (args : JsObj)
    (token envToken : Option String) (oracle : Oracle)
    (hmem : name ∉ declaredTools) :
    callToolHandler name args token envToken oracle =
      ([], .error ⟨.methodNotFound, "Unknown tool: " ++ name⟩) := by
  unfold callToolHandler
  rw [handleToolCall_default name args token envToken oracle hmem]

/-- Witness for C3 at a name outside the catalog. -/
theorem unknownTool_methodNotFound_witness :
    callToolHandler "does_not_exist" [] (some "k") none okOracle =
      ([], .error ⟨.methodNotFound, "Unknown tool: " ++ "does_not_exist"⟩) :=
  unknownTool_methodNotFound "does_not_exist" [] (some "k") none okOracle
    (by decide)

/-- C4: for every declared tool, when the upstream response status is not
2xx, the call fails with an InternalError whose message relays the
upstream status code, status text and response body text. -/
theorem upstreamFailure_internalError (name : String) (args : JsObj)
    (token envToken : Option String) (t : String) (oracle : Oracle)
    (hmem : name ∈ declaredTools)
    (htok : resolveToken token envToken = some t)
    (hbad : ∀ r, ¬ (200 ≤ (oracle r).status ∧ (oracle r).status < 300)) :
    ∃ req, callToolHandler name args token envToken oracle =
      ([req], .error ⟨.internalError,
        "API request failed: " ++ toString (oracle req).status ++ " " ++
          (oracle req).statusText ++ " - " ++ (oracle req).bodyText⟩) := by
  obtain ⟨e, m, p, b, heq, -, -, -, -⟩ :=
    handleToolCall_routed name args token envToken oracle hmem
  refine ⟨buildRequest e m p b t, ?_⟩
  unfold callToolHandler
  rw [heq, makeRequest_httpError e m p b token envToken t oracle htok (hbad _)]

/-- Witness for C4 at get_domain_info with a constant 404 oracle. -/
theorem upstreamFailure_internalError_witness :
    ∃ req, callToolHandler "get_domain_info" [("domain", JsValue.str "x.com")]
        (some "k") none notFoundOracle =
      ([req], .error ⟨.internalError,
        "API request failed: " ++ toString (notFoundOracle req).status ++ " " ++
          (notFoundOracle req).statusText ++ " - " ++
          (notFoundOracle req).bodyText⟩) :=
  upstreamFailure_internalError "get_domain_info"
    [("domain", JsValue.str "x.com")] (some "k") none "k" notFoundOracle
    (by decide) rfl (fun _ => by norm_num [notFoundOracle])

/-- C5: with no per-request token and no environment token, every
declared tool call fails with the InvalidRequest credential error before
any upstream request is issued; and a /sse request with a missing
Authorization header, or one that does not start with the bearer marker,
is rejected with status 401. -/
theorem noCredential_authFailure (name : String) (args : JsObj)
    (oracle : Oracle) (ah : String)
    (hmem : name ∈ declaredTools)
    (hp : strStartsWith ah "Bearer " = false) :
    callToolHandler name args none none oracle =
      ([], .error ⟨.invalidRequest, "FETCHSERP_API_TOKEN is required"⟩) ∧
    sseAuthCheck (some ah) = .error 401 ∧
    sseAuthCheck none = .error 401 := by
  refine ⟨?_, ?_, rfl⟩
  · obtain ⟨e, m, p, b, heq, -, -, -, -⟩ :=
      handleToolCall_routed name args none none oracle hmem
    unfold callToolHandler
    rw [heq, makeRequest_noToken e m p b none none oracle rfl]
  · show (if strStartsWith ah "Bearer " = true then Except.ok (strDrop ah 7)
      else Except.error 401) = Except.error 401
    rw [hp]
    simp

/-- Witness for C5 at get_serp_results with a non-bearer header. -/
theorem noCredential_authFailure_witness :
    callToolHandler "get_serp_results" [("query", JsValue.str "x")] none none
        okOracle =
      ([], .error ⟨.invalidRequest, "FETCHSERP_API_TOKEN is required"⟩) ∧
    sseAuthCheck (some "Token abc") = .error 401 ∧
    sseAuthCheck none = .error 401 :=
  noCredential_authFailure "get_serp_results" [("query", JsValue.str "x")]
    okOracle "Token abc" (by decide) (by decide)

/-- C2 counterexample: calling get_serp_js_result with a non-null uuid
argument issues a request whose query string is empty and whose endpoint
path embeds the uuid, so this argument is not mapped into the query
string and the path is not fixed. -/
theorem serpJsResult_uuid_not_in_query :
    (handleToolCall "get_serp_js_result" [("uuid", JsValue.str "abc")]
        (some "k") none okOracle).1 =
      [{ url := API_BASE_URL ++ "/api/v1/serp_js/abc"
         method := "GET"
         query := []
         headers := [("Authorization", "Bearer k"),
                     ("Content-Type", "application/json")]
         body := none }] := by
  rfl

/-- C2 (amended): every declared tool call with a resolved credential
issues exactly one upstream request, whatever the oracle answers, so no
retry ever happens; the two POST scraping tools send an empty query and
the two documented body fields; get_serp_js_result and get_user_info
send an empty query; every other tool maps its argument object into the
query string. -/
theorem oneRequest_perToolCall (name : String) (args : JsObj)
    (token envToken : Option String) (t : String) (oracle : Oracle)
    (hmem : name ∈ declaredTools)
    (htok : resolveToken token envToken = some t) :
    ∃ req, (handleToolCall name args token envToken oracle).1 = [req] ∧
      req.headers = [("Authorization", "Bearer " ++ t),
                     ("Content-Type", "application/json")] ∧
      (if name = "scrape_webpage_js" ∨ name = "scrape_webpage_js_proxy" then
        req.method = "POST" ∧ req.query = [] ∧
          req.body = some [("url", jsGet args "url"),
                           ("js_script", jsGet args "js_script")]
       else
        req.method = "GET" ∧ req.body = none ∧
          (if name = "get_serp_js_result" ∨ name = "get_user_info" then
            req.query = []
           else req.query = buildQuery args)) := by
  obtain ⟨e, m, p, b, heq, hpost, hget, hpe, hpa⟩ :=
    handleToolCall_routed name args token envToken oracle hmem
  refine ⟨buildRequest e m p b t, ?_, rfl, ?_⟩
  · rw [heq, makeRequest_fst e m p b token envToken t oracle htok]
  · by_cases h1 : name = "scrape_webpage_js" ∨ name = "scrape_webpage_js_proxy"
    · rw [if_pos h1]
      obtain ⟨hm, hb⟩ := hpost h1
      subst hm
      subst hb
      exact ⟨rfl, (buildRequest_post _ _ _ _).1, (buildRequest_post _ _ _ _).2⟩
    · rw [if_neg h1]
      obtain ⟨hm, hb⟩ := hget h1
      subst hm
      subst hb
      refine ⟨rfl, rfl, ?_⟩
      by_cases h2 : name = "get_serp_js_result" ∨ name = "get_user_info"
      · rw [if_pos h2]
        rw [hpe h2, buildRequest_query_get]
        rfl
      · rw [if_neg h2]
        have hp0 : p = args := hpa (by tauto)
        rw [hp0, buildRequest_query_get]

/-- Witness for the amended C2 at get_backlinks. -/
theorem oneRequest_perToolCall_witness :
    ∃ req, (handleToolCall "get_backlinks" [("domain", JsValue.str "ex.com")]
        (some "k") none okOracle).1 = [req] ∧
      req.headers = [("Authorization", "Bearer " ++ "k"),
                     ("Content-Type", "application/json")] ∧
      (if "get_backlinks" = "scrape_webpage_js" ∨
          "get_backlinks" = "scrape_webpage_js_proxy" then
        req.method = "POST" ∧ req.query = [] ∧
          req.body = some
            [("url", jsGet [("domain", JsValue.str "ex.com")] "url"),
             ("js_script", jsGet [("domain", JsValue.str "ex.com")] "js_script")]
       else
        req.method = "GET" ∧ req.body = none ∧
          (if "get_backlinks" = "get_serp_js_result" ∨
              "get_backlinks" = "get_user_info" then
            req.query = []
           else req.query = buildQuery [("domain", JsValue.str "ex.com")])) :=
  oneRequest_perToolCall "get_backlinks" [("domain", JsValue.str "ex.com")]
    (some "k") none "k" okOracle (by decide) rfl

/-- The transports map after one /sse step is either unchanged or the
result of storing the freshly generated session id. -/
theorem sseStep_map_cases (m : SessionMap) (sid : Option String)
    (isInit : Bool) (fresh : Nat) (genSid : Option String) :
    (sseStep m sid isInit fresh genSid).1 = m ∨
    ∃ g, genSid = some g ∧
      (sseStep m sid isInit fresh genSid).1 = mapStore m g fresh := by
  unfold sseStep
  split
  · split
    split <;> exact Or.inl rfl
  · split
    · split
      · split
        · exact Or.inr ⟨_, rfl, rfl⟩
        · exact Or.inl rfl
      · exact Or.inl rfl
    · exact Or.inl rfl

/-- C6 counterexample: when the session-id generator returns an id that
already has a binding, the store step of the /sse handler rebinds that
existing session id to the new transport. -/
theorem sessionRebind_on_collision :
    mapLookup [("a", 0)] "a" = some 0 ∧
    mapLookup (sseStep [("a", 0)] none true 1 (some "a")).1 "a" = some 1 :=
  ⟨rfl, rfl⟩

/-- C6 (amended): provided the generated session id is fresh, every /sse
handler step preserves all existing bindings, so a session id, once
created, keeps mapping to its original transport. -/
theorem sessionMap_noRebind_of_fresh (m : SessionMap) (sid : Option String)
    (isInit : Bool) (fresh : Nat) (genSid : Option String)
    (hfresh : ∀ g, genSid = some g → mapLookup m g = none)
    (s : String) (t : Nat) (hs : mapLookup m s = some t) :
    mapLookup (sseStep m sid isInit fresh genSid).1 s = some t := by
  rcases sseStep_map_cases m sid isInit fresh genSid with h | ⟨g, hg, h⟩
  · rw [h]
    exact hs
  · rw [h, mapStore_lookup]
    by_cases hsg : s = g
    · subst hsg
      rw [hfresh s hg] at hs
      exact Option.noConfusion hs
    · rw [if_neg hsg]
      exact hs

/-- Witness for the amended C6: a fresh generated id preserves the
existing binding. -/
theorem sessionMap_noRebind_of_fresh_witness :
    mapLookup (sseStep [("a", 0)] none true 1 (some "b")).1 "a" = some 0 :=
  sessionMap_noRebind_of_fresh [("a", 0)] none true 1 (some "b")
    (fun g hg => by cases hg; rfl) "a" 0 rfl

/-- C7: a /sse request whose Authorization header is Bearer T with T
nonempty yields token T from the auth check, and every upstream request
of a tool call using that token carries the same header Bearer T. -/
theorem inboundBearer_forwarded (T name : String) (args : JsObj)
    (envToken : Option String) (oracle : Oracle) (req : HttpRequest)
    (hT : T ≠ "")
    (hreq : req ∈ (handleToolCall name args (some T) envToken oracle).1) :
    sseAuthCheck (some ("Bearer " ++ T)) = .ok T ∧
    ("Authorization", "Bearer " ++ T) ∈ req.headers := by
  constructor
  · show (if strStartsWith ("Bearer " ++ T) "Bearer " = true
      then Except.ok (strDrop ("Bearer " ++ T) 7)
      else Except.error 401) = Except.ok T
    simp [strStartsWith_bearer, strDrop_bearer]
  · rw [mem_trace_headers name args (some T) envToken T oracle req
      (resolveToken_perRequest T envToken hT) hreq]
    exact List.mem_cons_self _ _

/-- Witness for C7 at get_user_info with token tok123. -/
theorem inboundBearer_forwarded_witness :
    sseAuthCheck (some ("Bearer " ++ "tok123")) = .ok "tok123" ∧
    ("Authorization", "Bearer " ++ "tok123") ∈
      (buildRequest "/api/v1/user" "GET" [] none "tok123").headers :=
  inboundBearer_forwarded "tok123" "get_user_info" [] none okOracle
    (buildRequest "/api/v1/user" "GET" [] none "tok123") (by decide)
    (by show buildRequest "/api/v1/user" "GET" [] none "tok123" ∈
          [buildRequest "/api/v1/user" "GET" [] none "tok123"]
        exact List.mem_singleton_self _)

/-- C8: a /sse Authorization header that is exactly the bearer marker
passes the 401 check with an empty token, and the tool call then falls
back to the environment token as the upstream credential. -/
theorem emptyBearer_fallsBack (envTok name : String) (args : JsObj)
    (oracle : Oracle) (req : HttpRequest) (he : envTok ≠ "")
    (hreq : req ∈ (handleToolCall name args (some "") (some envTok) oracle).1) :
    sseAuthCheck (some "Bearer ") = .ok "" ∧
    ("Authorization", "Bearer " ++ envTok) ∈ req.headers := by
  constructor
  · rfl
  · rw [mem_trace_headers name args (some "") (some envTok) envTok oracle req
      (resolveToken_fallback envTok he) hreq]
    exact List.mem_cons_self _ _

/-- Witness for C8 at get_serp_text with environment token envtok. -/
theorem emptyBearer_fallsBack_witness :
    sseAuthCheck (some "Bearer ") = .ok "" ∧
    ("Authorization", "Bearer " ++ "envtok") ∈
      (buildRequest "/api/v1/serp_text" "GET" [("query", JsValue.str "q")]
        none "envtok").headers :=
  emptyBearer_fallsBack "envtok" "get_serp_text" [("query", JsValue.str "q")]
    okOracle
    (buildRequest "/api/v1/serp_text" "GET" [("query", JsValue.str "q")]
      none "envtok") (by decide)
    (by show buildRequest "/api/v1/serp_text" "GET"
          [("query", JsValue.str "q")] none "envtok" ∈
          [buildRequest "/api/v1/serp_text" "GET"
            [("query", JsValue.str "q")] none "envtok"]
        exact List.mem_singleton_self _)

/-- C9: a GET request carries exactly the mapped query, in which null and
undefined arguments are omitted, an array argument contributes one pair
per element in order under the bracketed key, and every other argument
contributes its string conversion under its key. -/
theorem getQuery_mapping (endpoint : String) (params : JsObj)
    (body : Option JsObj) (token envToken : Option String) (t : String)
    (oracle : Oracle) (k : String) (v : JsValue) (es : List JsValue)
    (rest : JsObj) (htok : resolveToken token envToken = some t) :
    (∃ req, (makeRequest endpoint "GET" params body token envToken oracle).1 =
        [req] ∧ req.query = buildQuery params) ∧
    buildQuery ((k, JsValue.null) :: rest) = buildQuery rest ∧
    buildQuery ((k, JsValue.undefined) :: rest) = buildQuery rest ∧
    buildQuery ((k, JsValue.arr es) :: rest) =
      es.map (fun x => (k ++ "[]", jsToString x)) ++ buildQuery rest ∧
    (v.isNull = false → v.isUndef = false → v.isArr = false →
      buildQuery ((k, v) :: rest) = (k, jsToString v) :: buildQuery rest) := by
  refine ⟨⟨buildRequest endpoint "GET" params body t,
    makeRequest_fst endpoint "GET" params body token envToken t oracle htok,
    buildRequest_query_get endpoint params body t⟩, rfl, rfl, rfl, ?_⟩
  intro h1 h2 h3
  cases v with
  | null => exact absurd h1 (by simp [JsValue.isNull])
  | undefined => exact absurd h2 (by simp [JsValue.isUndef])
  | arr es2 => exact absurd h3 (by simp [JsValue.isArr])
  | bool b2 => rfl
  | num n2 => rfl
  | str s2 => rfl
  | obj => rfl

/-- Witness for C9 with a mixed concrete argument object. -/
theorem getQuery_mapping_witness :
    (∃ req, (makeRequest "/api/v1/serp" "GET" [("query", JsValue.str "pizza")]
        none (some "k") none okOracle).1 = [req] ∧
      req.query = buildQuery [("query", JsValue.str "pizza")]) ∧
    buildQuery (("country", JsValue.null) :: [("page", JsValue.num 2)]) =
      buildQuery [("page", JsValue.num 2)] ∧
    buildQuery (("country", JsValue.undefined) :: [("page", JsValue.num 2)]) =
      buildQuery [("page", JsValue.num 2)] ∧
    buildQuery (("country", JsValue.arr [JsValue.str "us", JsValue.str "fr"]) ::
        [("page", JsValue.num 2)]) =
      [JsValue.str "us", JsValue.str "fr"].map
        (fun x => ("country" ++ "[]", jsToString x)) ++
        buildQuery [("page", JsValue.num 2)] ∧
    ((JsValue.str "x").isNull = false → (JsValue.str "x").isUndef = false →
      (JsValue.str "x").isArr = false →
      buildQuery (("country", JsValue.str "x") :: [("page", JsValue.num 2)]) =
        ("country", jsToString (JsValue.str "x")) ::
          buildQuery [("page", JsValue.num 2)]) :=
  getQuery_mapping "/api/v1/serp" [("query", JsValue.str "pizza")] none
    (some "k") none "k" okOracle "country" (JsValue.str "x")
    [JsValue.str "us", JsValue.str "fr"] [("page", JsValue.num 2)] rfl

/-- C10: the two POST scraping tools never put query parameters in the
outbound request and send a JSON body holding exactly the fields url and
js_script, whatever extra arguments the caller supplies. -/
theorem postTools_fixed_body (args : JsObj) (token envToken : Option String)
    (t : String) (oracle : Oracle)
    (htok : resolveToken token envToken = some t) :
    (∃ req, (handleToolCall "scrape_webpage_js" args token envToken oracle).1 =
        [req] ∧ req.query = [] ∧
        req.body = some [("url", jsGet args "url"),
                         ("js_script", jsGet args "js_script")]) ∧
    (∃ req, (handleToolCall "scrape_webpage_js_proxy" args token envToken
        oracle).1 = [req] ∧ req.query = [] ∧
        req.body = some [("url", jsGet args "url"),
                         ("js_script", jsGet args "js_script")]) := by
  constructor
  · refine ⟨buildRequest "/api/v1/scrape_js" "POST"
      (("url", jsGet args "url") :: eraseKeys args ["url", "js_script"])
      (some [("url", jsGet args "url"), ("js_script", jsGet args "js_script")])
      t, ?_, (buildRequest_post _ _ _ _).1, (buildRequest_post _ _ _ _).2⟩
    rw [show handleToolCall "scrape_webpage_js" args token envToken oracle =
      makeRequest "/api/v1/scrape_js" "POST"
        (("url", jsGet args "url") :: eraseKeys args ["url", "js_script"])
        (some [("url", jsGet args "url"), ("js_script", jsGet args "js_script")])
        token envToken oracle from by simp [handleToolCall]]
    exact makeRequest_fst _ _ _ _ _ _ _ _ htok
  · refine ⟨buildRequest "/api/v1/scrape_js_with_proxy" "POST"
      (("url", jsGet args "url") :: ("country", jsGet args "country") ::
        eraseKeys args ["url", "country", "js_script"])
      (some [("url", jsGet args "url"), ("js_script", jsGet args "js_script")])
      t, ?_, (buildRequest_post _ _ _ _).1, (buildRequest_post _ _ _ _).2⟩
    rw [show handleToolCall "scrape_webpage_js_proxy" args token envToken
        oracle =
      makeRequest "/api/v1/scrape_js_with_proxy" "POST"
        (("url", jsGet args "url") :: ("country", jsGet args "country") ::
          eraseKeys args ["url", "country", "js_script"])
        (some [("url", jsGet args "url"), ("js_script", jsGet args "js_script")])
        token envToken oracle from by simp [handleToolCall]]
    exact makeRequest_fst _ _ _ _ _ _ _ _ htok

/-- Witness for C10 with an extra argument that is dropped from the body. -/
theorem postTools_fixed_body_witness :
    (∃ req, (handleToolCall "scrape_webpage_js"
        [("url", JsValue.str "u"), ("js_script", JsValue.str "s"),
         ("extra", JsValue.num 1)] (some "k") none okOracle).1 = [req] ∧
      req.query = [] ∧
      req.body = some
        [("url", jsGet [("url", JsValue.str "u"), ("js_script", JsValue.str "s"),
           ("extra", JsValue.num 1)] "url"),
         ("js_script", jsGet [("url", JsValue.str "u"),
           ("js_script", JsValue.str "s"), ("extra", JsValue.num 1)]
           "js_script")]) ∧
    (∃ req, (handleToolCall "scrape_webpage_js_proxy"
        [("url", JsValue.str "u"), ("js_script", JsValue.str "s"),
         ("extra", JsValue.num 1)] (some "k") none okOracle).1 = [req] ∧
      req.query = [] ∧
      req.body = some
        [("url", jsGet [("url", JsValue.str "u"), ("js_script", JsValue.str "s"),
           ("extra", JsValue.num 1)] "url"),
         ("js_script", jsGet [("url", JsValue.str "u"),
           ("js_script", JsValue.str "s"), ("extra", JsValue.num 1)]
           "js_script")]) :=
  postTools_fixed_body
    [("url", JsValue.str "u"), ("js_script", JsValue.str "s"),
     ("extra", JsValue.num 1)] (some "k") none "k" okOracle rfl
